import Mathlib

/-!
# Verification of the ppMEG parallel-port manager (ppMEG.c)

Shallow embedding of `src/ppMEG.c`: a MATLAB MEX entry point managing up
to three parallel-port slots with process-wide state (`pports`,
`addresses`, `use_multiple_ports`, `writing_port_idx`) and four
operations dispatched on the first character of an action string.

OS-level calls (`open`, `ioctl` with PPCLAIM / PPWDATA / PPRSTATUS /
PPRELEASE, `close`) are modelled by an environment `Env` of oracles.
`mexErrMsgTxt` aborts the current call but leaves the global state as
mutated so far; every operation therefore returns the state reached at
the abort point together with the error message, mirroring the C
control flow exactly (the three-iteration loops are unrolled, bound
`sizeof(addresses)/sizeof(addresses[0]) = 3`).
-/

/-- Oracle for the OS device primitives used by ppMEG.c.
`openFd a` is the return value of `open(a, O_RDWR)` (negative = failure);
`claimOk fd` whether `ioctl(fd, PPCLAIM)` succeeds; `wdataOk fd` whether
`ioctl(fd, PPWDATA, &msg)` succeeds; `statusVal fd` is `some v` when
`ioctl(fd, PPRSTATUS, &data)` succeeds reading `v`, `none` on failure;
`releaseOk` / `closeOk` for `ioctl(fd, PPRELEASE)` and `close(fd)`. -/
structure Env where
  openFd : String → Int
  claimOk : Int → Bool
  wdataOk : Int → Bool
  statusVal : Int → Option Nat
  releaseOk : Int → Bool
  closeOk : Int → Bool

/-- The global variables of ppMEG.c (lines 45-48):
`static int pports[] = {0, 0, 0};`
`static char addresses[3][15] = {...};`
`static int use_multiple_ports = 1;`
`static int writing_port_idx = 1;` -/
structure PortState where
  p0 : Int
  p1 : Int
  p2 : Int
  a0 : String
  a1 : String
  a2 : String
  use_multiple_ports : Int
  writing_port_idx : Nat
deriving Repr, DecidableEq

/-- `pports[i]` (out-of-range access does not occur in reachable states). -/
def PortState.pport (s : PortState) : Nat → Int
  | 0 => s.p0
  | 1 => s.p1
  | _ => s.p2

/-- `addresses[i]`. -/
def PortState.addr (s : PortState) : Nat → String
  | 0 => s.a0
  | 1 => s.a1
  | _ => s.a2

/-- Initial global state: all ports closed, the three default device
paths, multi-port mode on, write target index 1. -/
def initialState : PortState :=
  { p0 := 0, p1 := 0, p2 := 0
  , a0 := "/dev/parport0", a1 := "/dev/parport1", a2 := "/dev/parport4"
  , use_multiple_ports := 1, writing_port_idx := 1 }

/-- Error message of `writePort` / `readPort` on a closed slot. -/
def notOpenedMsg : String := "Parallel port was not opened \n"

/-- Error message of the `default:` branch of the dispatcher. -/
def invalidActionMsg : String := "No valid action specified : o / w / r / c"

/-- `openPort` (ppMEG.c lines 66-85): `open` the device, error if the
descriptor is negative, then `PPCLAIM`, error if that fails; on success
return the descriptor. -/
def openPort (env : Env) (a : String) : Except String Int :=
  let pport := env.openFd a
  if pport < 0 then
    .error "Couldn't open parallel port (user have permission on the device ? user in the good group ?) \n"
  else if env.claimOk pport = false then
    .error "PPCLAIM ioctl Error"
  else
    .ok pport

/-- `writePort` (lines 90-102): if the descriptor is positive, issue
`PPWDATA`; otherwise the logical-precondition error. -/
def writePort (env : Env) (pport : Int) : Except String Unit :=
  if 0 < pport then
    if env.wdataOk pport = false then .error "PPWDATA ioctl Error \n"
    else .ok ()
  else
    .error notOpenedMsg

/-- `readPort` (lines 110-123): if the descriptor is positive, issue
`PPRSTATUS` and return the value read; otherwise the
logical-precondition error. -/
def readPort (env : Env) (pport : Int) : Except String Nat :=
  if 0 < pport then
    match env.statusVal pport with
    | some v => .ok v
    | none => .error "PPRSTATUS ioctl Error \n"
  else
    .error notOpenedMsg

/-- `unloadPort` (lines 131-152): do nothing when the descriptor is not
positive (return it unchanged); otherwise `PPRELEASE` then `close`,
erroring if either fails, and return 0. -/
def unloadPort (env : Env) (pport : Int) : Except String Int :=
  if 0 < pport then
    if env.releaseOk pport = false then .error "PPRELEASE ioctl Error\n"
    else if env.closeOk pport = false then .error "Close Error\n"
    else .ok 0
  else
    .ok pport

/-- The descriptors on which `unloadPort pport` attempts `PPRELEASE`:
exactly `[pport]` when `pport > 0`, else none. -/
def unloadReleased (pport : Int) : List Int :=
  if 0 < pport then [pport] else []

/-- A MATLAB `mxArray` argument, as far as ppMEG.c inspects one: a
character string or an integer-valued numeric scalar. -/
inductive MxArray where
  | str : String → MxArray
  | num : Int → MxArray
deriving Repr, DecidableEq

/-- `mxArrayToString` on the argument kinds above. -/
def mxArrayToString : MxArray → String
  | .str s => s
  | .num _ => ""

/-- `mxGetScalar`: the numeric value; for a character array, the code of
the first character (MATLAB chars are numeric). -/
def mxGetScalar : MxArray → Int
  | .num z => z
  | .str s =>
    match s.toList with
    | [] => 0
    | c :: _ => (c.toNat : Int)

/-- The C cast `(unsigned char)` applied to an integer-valued scalar at
line 215: reduction modulo 256 into [0, 255]. -/
def castToUChar (z : Int) : Nat := (z % 256).toNat

/-- Result of one `mexFunction` call: the global state on return or at
the `mexErrMsgTxt` abort point, the `plhs` output values produced, the
byte delivered to the data pins by a successful `PPWDATA` (if any), the
descriptors on which `PPRELEASE` was attempted (in order), and the
error message if the call aborted. -/
structure StepResult where
  state : PortState
  outputs : List Nat
  written : Option Nat
  released : List Int
  error : Option String
deriving Repr, DecidableEq

/-- A call that aborts immediately with message `msg`, before touching
any state. -/
def errResult (s : PortState) (msg : String) : StepResult :=
  { state := s, outputs := [], written := none, released := [], error := some msg }

/-- One iteration of the multi-port open loop (lines 190-194):
`pports[i] = unloadPort(pports[i]); pports[i] = openPort(addresses[i]);`.
Returns the new slot value, the release attempts, and the error if the
iteration aborted (on an abort in `unloadPort` the slot keeps its old
value; on an abort in `openPort` it keeps the unloaded value). -/
def reopenSlot (env : Env) (pport : Int) (a : String) : Int × List Int × Option String :=
  match unloadPort env pport with
  | .error e => (pport, unloadReleased pport, some e)
  | .ok q =>
    match openPort env a with
    | .error e => (q, unloadReleased pport, some e)
    | .ok fd => (fd, unloadReleased pport, none)

/-- `ppMEG('open')` with no address (lines 187-195): close-then-reopen
each of the three default slots in index order; the mode flags are not
touched. -/
def openAllSlots (env : Env) (s : PortState) : StepResult :=
  match reopenSlot env s.p0 s.a0 with
  | (q0, r0, some e) =>
    { state := { s with p0 := q0 }, outputs := [], written := none
    , released := r0, error := some e }
  | (q0, r0, none) =>
    match reopenSlot env s.p1 s.a1 with
    | (q1, r1, some e) =>
      { state := { s with p0 := q0, p1 := q1 }, outputs := [], written := none
      , released := r0 ++ r1, error := some e }
    | (q1, r1, none) =>
      match reopenSlot env s.p2 s.a2 with
      | (q2, r2, some e) =>
        { state := { s with p0 := q0, p1 := q1, p2 := q2 }, outputs := [], written := none
        , released := r0 ++ r1 ++ r2, error := some e }
      | (q2, r2, none) =>
        { state := { s with p0 := q0, p1 := q1, p2 := q2 }, outputs := [], written := none
        , released := r0 ++ r1 ++ r2, error := none }

/-- `ppMEG('open', address)` (lines 196-204): set
`use_multiple_ports = 0`, fetch the address, set `writing_port_idx = 0`,
then close-and-reopen slot 0 with the user address, in that order.
The `addresses` array itself is never written. -/
def openSingleSlot (env : Env) (s : PortState) (arg : MxArray) : StepResult :=
  let s1 := { s with use_multiple_ports := 0 }
  let ua := mxArrayToString arg
  let s2 := { s1 with writing_port_idx := 0 }
  match unloadPort env s2.p0 with
  | .error e =>
    { state := s2, outputs := [], written := none
    , released := unloadReleased s2.p0, error := some e }
  | .ok q =>
    match openPort env ua with
    | .error e =>
      { state := { s2 with p0 := q }, outputs := [], written := none
      , released := unloadReleased s2.p0, error := some e }
    | .ok fd =>
      { state := { s2 with p0 := fd }, outputs := [], written := none
      , released := unloadReleased s2.p0, error := none }

/-- `ppMEG('write', message)` (lines 211-217): cast the scalar to
`unsigned char` and write it to the slot at `writing_port_idx`. -/
def doWrite (env : Env) (s : PortState) (arg : MxArray) : StepResult :=
  let message := castToUChar (mxGetScalar arg)
  match writePort env (s.pport s.writing_port_idx) with
  | .error e =>
    { state := s, outputs := [], written := none, released := [], error := some e }
  | .ok _ =>
    { state := s, outputs := [], written := some message, released := [], error := none }

/-- `ppMEG('read')` (lines 220-241): in multi-port mode read slots 0,1,2
in order producing three outputs; in single-port mode read slot 0 only. -/
def doRead (env : Env) (s : PortState) : StepResult :=
  if s.use_multiple_ports ≠ 0 then
    match readPort env s.p0 with
    | .error e =>
      { state := s, outputs := [], written := none, released := [], error := some e }
    | .ok v0 =>
      match readPort env s.p1 with
      | .error e =>
        { state := s, outputs := [v0], written := none, released := [], error := some e }
      | .ok v1 =>
        match readPort env s.p2 with
        | .error e =>
          { state := s, outputs := [v0, v1], written := none, released := [], error := some e }
        | .ok v2 =>
          { state := s, outputs := [v0, v1, v2], written := none, released := [], error := none }
  else
    match readPort env s.p0 with
    | .error e =>
      { state := s, outputs := [], written := none, released := [], error := some e }
    | .ok v0 =>
      { state := s, outputs := [v0], written := none, released := [], error := none }

/-- `unloadAll` (lines 154-158): `pports[i] = unloadPort(pports[i])` for
i = 0, 1, 2 in order, aborting at the first failure (the failing slot
keeps its value). -/
def unloadAll (env : Env) (s : PortState) : PortState × List Int × Option String :=
  match unloadPort env s.p0 with
  | .error e => (s, unloadReleased s.p0, some e)
  | .ok q0 =>
    match unloadPort env s.p1 with
    | .error e =>
      ({ s with p0 := q0 }, unloadReleased s.p0 ++ unloadReleased s.p1, some e)
    | .ok q1 =>
      match unloadPort env s.p2 with
      | .error e =>
        ({ s with p0 := q0, p1 := q1 }
        , unloadReleased s.p0 ++ unloadReleased s.p1 ++ unloadReleased s.p2, some e)
      | .ok q2 =>
        ({ s with p0 := q0, p1 := q1, p2 := q2 }
        , unloadReleased s.p0 ++ unloadReleased s.p1 ++ unloadReleased s.p2, none)

/-- `ppMEG('close')` (lines 243-251): `unloadAll`, then (only if it did
not abort) reset `use_multiple_ports = 1` and `writing_port_idx = 1`. -/
def doClose (env : Env) (s : PortState) : StepResult :=
  match unloadAll env s with
  | (s2, rel, some e) =>
    { state := s2, outputs := [], written := none, released := rel, error := some e }
  | (s2, rel, none) =>
    { state := { s2 with use_multiple_ports := 1, writing_port_idx := 1 }
    , outputs := [], written := none, released := rel, error := none }

/-- The `switch (action[0])` dispatcher (lines 184-255), keyed on the
first character of the action string (`none` models the NUL read on an
empty string, falling to `default:`). Argument-count checks mirror the
`nrhs` tests, with `args` the inputs after the action (nrhs = 1 +
args.length). -/
def dispatch (env : Env) (s : PortState) (c : Option Char) (args : List MxArray) : StepResult :=
  if c = some 'o' then
    match args with
    | [] => openAllSlots env s
    | [a] => openSingleSlot env s a
    | _ => errResult s "Incorrect number of arguments."
  else if c = some 'w' then
    match args with
    | [a] => doWrite env s a
    | _ => errResult s "You need to specify the message to send [0-255]"
  else if c = some 'r' then
    match args with
    | [] => doRead env s
    | _ => errResult s "Error calling read: no argument should be given"
  else if c = some 'c' then
    match args with
    | [] => doClose env s
    | _ => errResult s "Error calling close: no argument should be given"
  else
    errResult s invalidActionMsg

/-- `mexFunction` (lines 166-259): with no inputs print help and return
(no state change, no error); otherwise dispatch on the first character
of the action string `prhs[0]`. -/
def mexFunction (env : Env) (s : PortState) (prhs : List MxArray) : StepResult :=
  match prhs with
  | [] => { state := s, outputs := [], written := none, released := [], error := none }
  | a :: args => dispatch env s (mxArrayToString a).toList.head? args

/-- Success of `unloadPort env pport`: either the slot is not open, or
both release and close succeed. -/
def Env.unloadOk (env : Env) (pport : Int) : Prop :=
  pport ≤ 0 ∨ (env.releaseOk pport = true ∧ env.closeOk pport = true)

/-- Success of `openPort env a`: the descriptor is nonnegative and the
claim succeeds. -/
def Env.openOk (env : Env) (a : String) : Prop :=
  0 ≤ env.openFd a ∧ env.claimOk (env.openFd a) = true

instance (env : Env) (pport : Int) : Decidable (env.unloadOk pport) := by
  unfold Env.unloadOk
  infer_instance

instance (env : Env) (a : String) : Decidable (env.openOk a) := by
  unfold Env.openOk
  infer_instance

/-- An environment in which every primitive succeeds; reads return 7 and
opens return descriptor 3. -/
def envAllOk : Env :=
  { openFd := fun _ => 3
  , claimOk := fun _ => true
  , wdataOk := fun _ => true
  , statusVal := fun _ => some 7
  , releaseOk := fun _ => true
  , closeOk := fun _ => true }

/-- An environment identical to `envAllOk` except that opening the
second default address fails at the `open` call. -/
def envFailSlot1 : Env :=
  { envAllOk with openFd := fun a => if a = "/dev/parport1" then -1 else 3 }

/-- The state after a successful multi-port `ppMEG('open')` from the
initial state: all three slots open, default flags. -/
def openedState : PortState :=
  (mexFunction envAllOk initialState [MxArray.str "open"]).state

/-- The state after a successful single-port
`ppMEG('open', '/dev/parport1')` from the initial state. -/
def singleState : PortState :=
  (mexFunction envAllOk initialState [MxArray.str "open", MxArray.str "/dev/parport1"]).state

theorem unloadPort_ok (env : Env) (p : Int) (h : env.unloadOk p) :
    unloadPort env p = .ok (if 0 < p then 0 else p) := by
  unfold unloadPort
  rcases h with h | ⟨hr, hc⟩
  · simp [not_lt.mpr h]
  · split
    · simp [hr, hc]
    · rfl

theorem openPort_ok (env : Env) (a : String) (h : env.openOk a) :
    openPort env a = .ok (env.openFd a) := by
  obtain ⟨hfd, hcl⟩ := h
  unfold openPort
  simp [not_lt.mpr hfd, hcl]

theorem openPort_fail (env : Env) (a : String) (h : ¬ env.openOk a) :
    ∃ e, openPort env a = .error e := by
  unfold Env.openOk at h
  push_neg at h
  unfold openPort
  by_cases hfd : env.openFd a < 0
  · refine ⟨"Couldn't open parallel port (user have permission on the device ? user in the good group ?) \n", ?_⟩
    simp [hfd]
  · have hcl : env.claimOk (env.openFd a) = false :=
      Bool.not_eq_true _ ▸ h (not_lt.mp hfd)
    refine ⟨"PPCLAIM ioctl Error", ?_⟩
    simp [hfd, hcl]

theorem readPort_ok (env : Env) (p : Int) (v : Nat) (hp : 0 < p)
    (hv : env.statusVal p = some v) : readPort env p = .ok v := by
  unfold readPort
  simp [hp, hv]

theorem reopenSlot_ok (env : Env) (p : Int) (a : String)
    (hu : env.unloadOk p) (ho : env.openOk a) :
    reopenSlot env p a = (env.openFd a, unloadReleased p, none) := by
  unfold reopenSlot
  rw [unloadPort_ok env p hu, openPort_ok env a ho]

theorem reopenSlot_fail (env : Env) (p : Int) (a : String)
    (hu : env.unloadOk p) (ho : ¬ env.openOk a) :
    ∃ e, reopenSlot env p a = ((if 0 < p then 0 else p), unloadReleased p, some e) := by
  obtain ⟨e, he⟩ := openPort_fail env a ho
  refine ⟨e, ?_⟩
  unfold reopenSlot
  rw [unloadPort_ok env p hu, he]

/-- C3: Open with exactly one extra argument closes slot 0 if it is
open, opens and claims the supplied address into slot 0, sets
`multi_port_mode = false` and `write_target_index = 0`, and leaves
slots 1 and 2 (handles and addresses) unchanged. -/
theorem C3_open_single (env : Env) (s : PortState) (a : String)
    (hu : env.unloadOk s.p0) (ho : env.openOk a) :
    let r := mexFunction env s [MxArray.str "open", MxArray.str a]
    r.error = none ∧
    r.state.p0 = env.openFd a ∧
    r.state.use_multiple_ports = 0 ∧
    r.state.writing_port_idx = 0 ∧
    r.state.p1 = s.p1 ∧ r.state.p2 = s.p2 ∧
    r.state.a0 = s.a0 ∧ r.state.a1 = s.a1 ∧ r.state.a2 = s.a2 ∧
    r.released = unloadReleased s.p0 := by
  have hm : mexFunction env s [MxArray.str "open", MxArray.str a]
      = openSingleSlot env s (MxArray.str a) := rfl
  dsimp only
  rw [hm]
  unfold openSingleSlot
  rw [show mxArrayToString (MxArray.str a) = a from rfl]
  dsimp only
  rw [unloadPort_ok env s.p0 hu, openPort_ok env a ho]
  simp

/-- C4: Close with zero extra arguments releases and closes every open
slot in index order 0,1,2 and then resets `multi_port_mode = true` and
`write_target_index = 1`, restoring the default multi-port posture. -/
theorem C4_close_resets (env : Env) (s : PortState)
    (h0 : env.unloadOk s.p0) (h1 : env.unloadOk s.p1) (h2 : env.unloadOk s.p2) :
    let r := mexFunction env s [MxArray.str "close"]
    r.error = none ∧
    r.state.p0 = (if 0 < s.p0 then 0 else s.p0) ∧
    r.state.p1 = (if 0 < s.p1 then 0 else s.p1) ∧
    r.state.p2 = (if 0 < s.p2 then 0 else s.p2) ∧
    r.state.use_multiple_ports = 1 ∧
    r.state.writing_port_idx = 1 ∧
    r.released = unloadReleased s.p0 ++ unloadReleased s.p1 ++ unloadReleased s.p2 := by
  have hm : mexFunction env s [MxArray.str "close"] = doClose env s := rfl
  dsimp only
  rw [hm]
  unfold doClose unloadAll
  rw [unloadPort_ok env s.p0 h0, unloadPort_ok env s.p1 h1, unloadPort_ok env s.p2 h2]
  simp

/-- C5: Write on a closed target slot and Read on a closed slot fail
with the logical-precondition message "Parallel port was not opened",
distinct from the I/O error messages; no device I/O occurs (the result
does not depend on the environment), nothing is written, and the state
is unchanged. -/
theorem C5_not_opened (env : Env) (s : PortState) (z : Int)
    (hw : s.pport s.writing_port_idx ≤ 0) (h0 : s.p0 ≤ 0) :
    let w := mexFunction env s [MxArray.str "write", MxArray.num z]
    let r := mexFunction env s [MxArray.str "read"]
    w.error = some notOpenedMsg ∧ w.written = none ∧ w.state = s ∧
    r.error = some notOpenedMsg ∧ r.outputs = [] ∧ r.state = s ∧
    notOpenedMsg ≠ "PPWDATA ioctl Error \n" ∧
    notOpenedMsg ≠ "PPRSTATUS ioctl Error \n" := by
  have hmw : mexFunction env s [MxArray.str "write", MxArray.num z]
      = doWrite env s (MxArray.num z) := rfl
  have hmr : mexFunction env s [MxArray.str "read"] = doRead env s := rfl
  have hwp : writePort env (s.pport s.writing_port_idx) = .error notOpenedMsg := by
    unfold writePort
    rw [if_neg (not_lt.mpr hw)]
  have hrp : readPort env s.p0 = .error notOpenedMsg := by
    unfold readPort
    rw [if_neg (not_lt.mpr h0)]
  dsimp only
  rw [hmw, hmr]
  unfold doWrite doRead
  rw [hwp, hrp]
  refine ⟨rfl, rfl, rfl, ?_, ?_, ?_, by decide, by decide⟩ <;> (split <;> rfl)

/-- C8: Close when no slot is open is a no-op that succeeds: every slot
handle keeps its (sentinel) value, no PPRELEASE is attempted, and the
mode flags are reset to their defaults. -/
theorem C8_close_noop (env : Env) (s : PortState)
    (h0 : s.p0 ≤ 0) (h1 : s.p1 ≤ 0) (h2 : s.p2 ≤ 0) :
    let r := mexFunction env s [MxArray.str "close"]
    r.error = none ∧ r.released = [] ∧
    r.state.p0 = s.p0 ∧ r.state.p1 = s.p1 ∧ r.state.p2 = s.p2 ∧
    r.state.use_multiple_ports = 1 ∧ r.state.writing_port_idx = 1 := by
  have hm : mexFunction env s [MxArray.str "close"] = doClose env s := rfl
  dsimp only
  rw [hm]
  unfold doClose unloadAll
  rw [unloadPort_ok env s.p0 (Or.inl h0), unloadPort_ok env s.p1 (Or.inl h1),
    unloadPort_ok env s.p2 (Or.inl h2)]
  simp [unloadReleased, not_lt.mpr h0, not_lt.mpr h1, not_lt.mpr h2]

/-- C10: Write performs no range validation: for any integer scalar `z`,
with the target slot open and the device write succeeding, the byte
delivered to the data pins is `z` reduced modulo 256, and the call
succeeds (never rejects out-of-range input). -/
theorem C10_write_mod (env : Env) (s : PortState) (z : Int)
    (hp : 0 < s.pport s.writing_port_idx)
    (hio : env.wdataOk (s.pport s.writing_port_idx) = true) :
    let r := mexFunction env s [MxArray.str "write", MxArray.num z]
    r.error = none ∧ r.written = some ((z % 256).toNat) ∧ r.state = s := by
  have hm : mexFunction env s [MxArray.str "write", MxArray.num z]
      = doWrite env s (MxArray.num z) := rfl
  dsimp only
  rw [hm]
  unfold doWrite writePort
  simp [hp, hio, castToUChar, mxGetScalar]

/-- C6: Read with zero extra arguments changes no manager state, writes
nothing and releases nothing; when every read primitive succeeds it
returns exactly three values (slots 0,1,2 in order) in multi-port mode
and exactly one value (slot 0) in single-port mode. -/
theorem C6_read (env : Env) (s : PortState) (v0 : Nat)
    (h0 : 0 < s.p0) (hs0 : env.statusVal s.p0 = some v0) :
    let r := mexFunction env s [MxArray.str "read"]
    r.state = s ∧ r.written = none ∧ r.released = [] ∧
    (s.use_multiple_ports = 0 → r.outputs = [v0] ∧ r.error = none) ∧
    (∀ v1 v2 : Nat, 0 < s.p1 → env.statusVal s.p1 = some v1 →
      0 < s.p2 → env.statusVal s.p2 = some v2 → s.use_multiple_ports ≠ 0 →
      r.outputs = [v0, v1, v2] ∧ r.error = none) := by
  have hm : mexFunction env s [MxArray.str "read"] = doRead env s := rfl
  dsimp only
  rw [hm]
  unfold doRead
  rw [readPort_ok env s.p0 v0 h0 hs0]
  split
  case isTrue hmp =>
    rcases hr1 : readPort env s.p1 with e1 | w1
    · refine ⟨rfl, rfl, rfl, fun hz => absurd hz hmp, ?_⟩
      intro v1 v2 hp1 hv1 hp2 hv2 _
      rw [readPort_ok env s.p1 v1 hp1 hv1] at hr1
      exact absurd hr1 (by simp)
    · rcases hr2 : readPort env s.p2 with e2 | w2
      · refine ⟨rfl, rfl, rfl, fun hz => absurd hz hmp, ?_⟩
        intro v1 v2 hp1 hv1 hp2 hv2 _
        rw [readPort_ok env s.p2 v2 hp2 hv2] at hr2
        exact absurd hr2 (by simp)
      · refine ⟨rfl, rfl, rfl, fun hz => absurd hz hmp, ?_⟩
        intro v1 v2 hp1 hv1 hp2 hv2 _
        rw [readPort_ok env s.p1 v1 hp1 hv1] at hr1
        rw [readPort_ok env s.p2 v2 hp2 hv2] at hr2
        simp only [Except.ok.injEq] at hr1 hr2
        subst hr1
        subst hr2
        exact ⟨rfl, rfl⟩
  case isFalse hmp =>
    refine ⟨rfl, rfl, rfl, fun _ => ⟨rfl, rfl⟩, ?_⟩
    intro v1 v2 _ _ _ _ hne
    exact absurd (by omega : s.use_multiple_ports = 0) hne

/-- C1 counterexample: from the initial state, a single-port
`Open('/dev/parport1')` followed by a no-argument `Open` in which every
per-slot open succeeds leaves `use_multiple_ports = 0` and
`writing_port_idx = 0` — not true and 1 as claimed: the multi-port Open
branch never touches the mode flags. -/
theorem C1_counterexample :
    (mexFunction envAllOk initialState
      [MxArray.str "open", MxArray.str "/dev/parport1"]).error = none ∧
    (mexFunction envAllOk
      (mexFunction envAllOk initialState
        [MxArray.str "open", MxArray.str "/dev/parport1"]).state
      [MxArray.str "open"]).error = none ∧
    (mexFunction envAllOk
      (mexFunction envAllOk initialState
        [MxArray.str "open", MxArray.str "/dev/parport1"]).state
      [MxArray.str "open"]).state.use_multiple_ports = 0 ∧
    (mexFunction envAllOk
      (mexFunction envAllOk initialState
        [MxArray.str "open", MxArray.str "/dev/parport1"]).state
      [MxArray.str "open"]).state.writing_port_idx = 0 := by
  decide

/-- C1 (amended): Open with zero extra arguments, for each of the three
default slots in index order 0,1,2, closes the slot if open and then
opens and claims its default address; it leaves `multi_port_mode` and
`write_target_index` unchanged (so after a single-port Open they stay
false and 0). -/
theorem C1_open_multi (env : Env) (s : PortState)
    (h0u : env.unloadOk s.p0) (h0o : env.openOk s.a0)
    (h1u : env.unloadOk s.p1) (h1o : env.openOk s.a1)
    (h2u : env.unloadOk s.p2) (h2o : env.openOk s.a2) :
    let r := mexFunction env s [MxArray.str "open"]
    r.error = none ∧
    r.state.p0 = env.openFd s.a0 ∧
    r.state.p1 = env.openFd s.a1 ∧
    r.state.p2 = env.openFd s.a2 ∧
    r.state.use_multiple_ports = s.use_multiple_ports ∧
    r.state.writing_port_idx = s.writing_port_idx ∧
    r.state.a0 = s.a0 ∧ r.state.a1 = s.a1 ∧ r.state.a2 = s.a2 ∧
    r.released = unloadReleased s.p0 ++ unloadReleased s.p1 ++ unloadReleased s.p2 := by
  have hm : mexFunction env s [MxArray.str "open"] = openAllSlots env s := rfl
  dsimp only
  rw [hm]
  unfold openAllSlots
  rw [reopenSlot_ok env s.p0 s.a0 h0u h0o, reopenSlot_ok env s.p1 s.a1 h1u h1o,
    reopenSlot_ok env s.p2 s.a2 h2u h2o]
  simp

/-- C1 witness: the amended multi-port Open behaviour instantiated after
a single-port Open, with every primitive succeeding. -/
theorem C1_open_multi_witness :
    let r := mexFunction envAllOk singleState [MxArray.str "open"]
    r.error = none ∧
    r.state.p0 = envAllOk.openFd singleState.a0 ∧
    r.state.p1 = envAllOk.openFd singleState.a1 ∧
    r.state.p2 = envAllOk.openFd singleState.a2 ∧
    r.state.use_multiple_ports = singleState.use_multiple_ports ∧
    r.state.writing_port_idx = singleState.writing_port_idx ∧
    r.state.a0 = singleState.a0 ∧ r.state.a1 = singleState.a1 ∧
    r.state.a2 = singleState.a2 ∧
    r.released = unloadReleased singleState.p0 ++ unloadReleased singleState.p1 ++
      unloadReleased singleState.p2 :=
  C1_open_multi envAllOk singleState (by decide) (by decide) (by decide) (by decide)
    (by decide) (by decide)

/-- C2 counterexample: the dispatcher is case-sensitive: the action
"Open" (leading 'O') is rejected as an invalid action with the state
unchanged, while "open" (leading 'o') dispatches Open successfully. -/
theorem C2_counterexample :
    (mexFunction envAllOk initialState [MxArray.str "Open"]).error
      = some invalidActionMsg ∧
    (mexFunction envAllOk initialState [MxArray.str "Open"]).state = initialState ∧
    (mexFunction envAllOk initialState [MxArray.str "open"]).error = none := by
  decide

/-- C2 (amended): the dispatcher matches the action string
case-sensitively on its first character only: two action strings with
the same first character dispatch identically (the remaining characters
are ignored), and any leading character outside the lowercase set
'o','w','r','c' — uppercase included — is an invocation error that
leaves the state unchanged. -/
theorem C2_dispatch_first_char (env : Env) (s : PortState) (a b : String)
    (args : List MxArray) (hab : a.toList.head? = b.toList.head?) :
    mexFunction env s (MxArray.str a :: args) = mexFunction env s (MxArray.str b :: args) ∧
    (∀ c : Char, a.toList.head? = some c → c ∉ (['o', 'w', 'r', 'c'] : List Char) →
      mexFunction env s (MxArray.str a :: args) = errResult s invalidActionMsg) := by
  constructor
  · show dispatch env s a.toList.head? args = dispatch env s b.toList.head? args
    rw [hab]
  · intro c hc hnotin
    show dispatch env s a.toList.head? args = errResult s invalidActionMsg
    rw [hc]
    simp only [List.mem_cons, List.mem_singleton, not_or] at hnotin
    obtain ⟨ho, hw, hr, hcl⟩ := hnotin
    unfold dispatch
    rw [if_neg (by simpa using ho), if_neg (by simpa using hw),
      if_neg (by simpa using hr), if_neg (by simpa using hcl)]

/-- C2 witness: "write" and "w" dispatch identically, and the action
"x" is an invocation error leaving the state unchanged. -/
theorem C2_dispatch_first_char_witness :
    mexFunction envAllOk initialState [MxArray.str "write", MxArray.num 5]
      = mexFunction envAllOk initialState [MxArray.str "w", MxArray.num 5] ∧
    mexFunction envAllOk initialState [MxArray.str "x"]
      = errResult initialState invalidActionMsg :=
  ⟨(C2_dispatch_first_char envAllOk initialState "write" "w" [MxArray.num 5] rfl).1,
   (C2_dispatch_first_char envAllOk initialState "x" "x" [] rfl).2 'x' rfl (by decide)⟩

/-- C7: if the open-or-claim of slot k fails during multi-port Open, the
call aborts with an error and performs no rollback: slots below k keep
their newly opened descriptors, slots above k are untouched, and the
mode flags are unchanged. -/
theorem C7_open_multi_partial (env : Env) (s : PortState) (k : Fin 3)
    (hlow : ∀ i : Fin 3, i < k → env.unloadOk (s.pport i.val) ∧ env.openOk (s.addr i.val))
    (hku : env.unloadOk (s.pport k.val))
    (hko : ¬ env.openOk (s.addr k.val)) :
    let r := mexFunction env s [MxArray.str "open"]
    r.error.isSome = true ∧
    (∀ i : Fin 3, i < k → r.state.pport i.val = env.openFd (s.addr i.val)) ∧
    (∀ i : Fin 3, k < i → r.state.pport i.val = s.pport i.val) ∧
    r.state.use_multiple_ports = s.use_multiple_ports ∧
    r.state.writing_port_idx = s.writing_port_idx := by
  have hm : mexFunction env s [MxArray.str "open"] = openAllSlots env s := rfl
  dsimp only
  rw [hm]
  unfold openAllSlots
  fin_cases k
  · obtain ⟨e, he⟩ := reopenSlot_fail env s.p0 s.a0 hku hko
    rw [he]
    refine ⟨rfl, ?_, ?_, rfl, rfl⟩
    · intro i hi
      exact absurd hi (by simp [Fin.lt_def])
    · intro i hi
      fin_cases i
      · exact absurd hi (by decide)
      · rfl
      · rfl
  · obtain ⟨h0u, h0o⟩ := hlow 0 (by decide)
    obtain ⟨e, he⟩ := reopenSlot_fail env s.p1 s.a1 hku hko
    rw [reopenSlot_ok env s.p0 s.a0 h0u h0o, he]
    refine ⟨rfl, ?_, ?_, rfl, rfl⟩
    · intro i hi
      fin_cases i
      · rfl
      · exact absurd hi (by decide)
      · exact absurd hi (by decide)
    · intro i hi
      fin_cases i
      · exact absurd hi (by decide)
      · exact absurd hi (by decide)
      · rfl
  · obtain ⟨h0u, h0o⟩ := hlow 0 (by decide)
    obtain ⟨h1u, h1o⟩ := hlow 1 (by decide)
    obtain ⟨e, he⟩ := reopenSlot_fail env s.p2 s.a2 hku hko
    rw [reopenSlot_ok env s.p0 s.a0 h0u h0o, reopenSlot_ok env s.p1 s.a1 h1u h1o, he]
    refine ⟨rfl, ?_, ?_, rfl, rfl⟩
    · intro i hi
      fin_cases i
      · rfl
      · rfl
      · exact absurd hi (by decide)
    · intro i hi
      fin_cases i <;> exact absurd hi (by decide)

/-- The mode-flag invariant: the write target is slot 0 or slot 1, and
multi-port mode holds exactly when the write target is slot 1. -/
def StateInv (s : PortState) : Prop :=
  (s.writing_port_idx = 0 ∨ s.writing_port_idx = 1) ∧
  (s.use_multiple_ports ≠ 0 ↔ s.writing_port_idx = 1)

/-- The state reached from the initial state by a sequence of calls,
each with its own environment and argument list (calls that abort with
an error leave the state they had reached). -/
def runSeq (cmds : List (Env × List MxArray)) : PortState :=
  cmds.foldl (fun t ec => (mexFunction ec.1 t ec.2).state) initialState

theorem openAllSlots_flags (env : Env) (s : PortState) :
    (openAllSlots env s).state.use_multiple_ports = s.use_multiple_ports ∧
    (openAllSlots env s).state.writing_port_idx = s.writing_port_idx := by
  unfold openAllSlots
  (repeat' split) <;> exact ⟨rfl, rfl⟩

theorem openSingleSlot_flags (env : Env) (s : PortState) (arg : MxArray) :
    (openSingleSlot env s arg).state.use_multiple_ports = 0 ∧
    (openSingleSlot env s arg).state.writing_port_idx = 0 := by
  unfold openSingleSlot
  dsimp only
  (repeat' split) <;> exact ⟨rfl, rfl⟩

theorem doWrite_state (env : Env) (s : PortState) (arg : MxArray) :
    (doWrite env s arg).state = s := by
  unfold doWrite
  (repeat' split) <;> rfl

theorem doRead_state (env : Env) (s : PortState) :
    (doRead env s).state = s := by
  unfold doRead
  (repeat' split) <;> rfl

theorem doClose_flags (env : Env) (s : PortState) :
    ((doClose env s).state.use_multiple_ports = s.use_multiple_ports ∧
      (doClose env s).state.writing_port_idx = s.writing_port_idx) ∨
    ((doClose env s).state.use_multiple_ports = 1 ∧
      (doClose env s).state.writing_port_idx = 1) := by
  unfold doClose unloadAll
  rcases h0 : unloadPort env s.p0 with e0 | q0
  · simp
  · rcases h1 : unloadPort env s.p1 with e1 | q1
    · simp
    · rcases h2 : unloadPort env s.p2 with e2 | q2 <;> simp

theorem mexFunction_inv (env : Env) (s : PortState) (prhs : List MxArray)
    (h : StateInv s) : StateInv (mexFunction env s prhs).state := by
  match prhs with
  | [] => exact h
  | a :: args =>
    show StateInv (dispatch env s (mxArrayToString a).toList.head? args).state
    unfold dispatch
    split
    · match args with
      | [] =>
        obtain ⟨h1, h2⟩ := openAllSlots_flags env s
        unfold StateInv at h ⊢
        rw [h1, h2]
        exact h
      | [b] =>
        obtain ⟨h1, h2⟩ := openSingleSlot_flags env s b
        unfold StateInv
        rw [h1, h2]
        simp
      | _ :: _ :: _ => exact h
    · split
      · match args with
        | [b] =>
          rw [doWrite_state env s b]
          exact h
        | [] => exact h
        | _ :: _ :: _ => exact h
      · split
        · match args with
          | [] =>
            rw [doRead_state env s]
            exact h
          | _ :: _ => exact h
        · split
          · match args with
            | [] =>
              rcases doClose_flags env s with ⟨h1, h2⟩ | ⟨h1, h2⟩
              · unfold StateInv at h ⊢
                rw [h1, h2]
                exact h
              · unfold StateInv
                rw [h1, h2]
                simp
            | _ :: _ => exact h
          · exact h

/-- C9: reachable-state invariant: from the default state, any sequence
of calls (including ones that abort with an error partway) leaves
`write_target_index` in (0, 1) with multi-port mode holding exactly when
the write target is slot 1. -/
theorem C9_invariant (cmds : List (Env × List MxArray)) : StateInv (runSeq cmds) := by
  unfold runSeq
  suffices h : ∀ s : PortState, StateInv s →
      StateInv (cmds.foldl (fun t ec => (mexFunction ec.1 t ec.2).state) s) by
    refine h initialState ⟨Or.inr rfl, ?_⟩
    simp [initialState]
  induction cmds with
  | nil => exact fun s hs => hs
  | cons c cs ih =>
    intro s hs
    exact ih _ (mexFunction_inv c.1 s c.2 hs)

/-- C3 witness: single-port Open of a fresh address after a multi-port
Open, with all primitives succeeding. -/
theorem C3_open_single_witness :
    let r := mexFunction envAllOk openedState [MxArray.str "open", MxArray.str "/dev/parport9"]
    r.error = none ∧
    r.state.p0 = envAllOk.openFd "/dev/parport9" ∧
    r.state.use_multiple_ports = 0 ∧
    r.state.writing_port_idx = 0 ∧
    r.state.p1 = openedState.p1 ∧ r.state.p2 = openedState.p2 ∧
    r.state.a0 = openedState.a0 ∧ r.state.a1 = openedState.a1 ∧
    r.state.a2 = openedState.a2 ∧
    r.released = unloadReleased openedState.p0 :=
  C3_open_single envAllOk openedState "/dev/parport9" (by decide) (by decide)

/-- C4 witness: Close after a successful multi-port Open. -/
theorem C4_close_resets_witness :
    let r := mexFunction envAllOk openedState [MxArray.str "close"]
    r.error = none ∧
    r.state.p0 = (if 0 < openedState.p0 then 0 else openedState.p0) ∧
    r.state.p1 = (if 0 < openedState.p1 then 0 else openedState.p1) ∧
    r.state.p2 = (if 0 < openedState.p2 then 0 else openedState.p2) ∧
    r.state.use_multiple_ports = 1 ∧
    r.state.writing_port_idx = 1 ∧
    r.released = unloadReleased openedState.p0 ++ unloadReleased openedState.p1 ++
      unloadReleased openedState.p2 :=
  C4_close_resets envAllOk openedState (by decide) (by decide) (by decide)

/-- C5 witness: Write and Read from the initial (all-closed) state. -/
theorem C5_not_opened_witness :
    let w := mexFunction envAllOk initialState [MxArray.str "write", MxArray.num 5]
    let r := mexFunction envAllOk initialState [MxArray.str "read"]
    w.error = some notOpenedMsg ∧ w.written = none ∧ w.state = initialState ∧
    r.error = some notOpenedMsg ∧ r.outputs = [] ∧ r.state = initialState ∧
    notOpenedMsg ≠ "PPWDATA ioctl Error \n" ∧
    notOpenedMsg ≠ "PPRSTATUS ioctl Error \n" :=
  C5_not_opened envAllOk initialState 5 (by decide) (by decide)

/-- C6 witness: Read after a successful multi-port Open returns three
values and changes no state. -/
theorem C6_read_witness :
    (mexFunction envAllOk openedState [MxArray.str "read"]).outputs = [7, 7, 7] ∧
    (mexFunction envAllOk openedState [MxArray.str "read"]).error = none ∧
    (mexFunction envAllOk openedState [MxArray.str "read"]).state = openedState := by
  have h := C6_read envAllOk openedState 7 (by decide) rfl
  dsimp only at h
  have hm := h.2.2.2.2 7 7 (by decide) rfl (by decide) rfl (by decide)
  exact ⟨hm.1, hm.2, h.1⟩

/-- C7 witness: opening with the second default address failing leaves
slot 0 newly opened, slot 2 untouched, and the flags unchanged. -/
theorem C7_open_multi_partial_witness :
    let r := mexFunction envFailSlot1 initialState [MxArray.str "open"]
    r.error.isSome = true ∧
    (∀ i : Fin 3, i < (1 : Fin 3) →
      r.state.pport i.val = envFailSlot1.openFd (initialState.addr i.val)) ∧
    (∀ i : Fin 3, (1 : Fin 3) < i → r.state.pport i.val = initialState.pport i.val) ∧
    r.state.use_multiple_ports = initialState.use_multiple_ports ∧
    r.state.writing_port_idx = initialState.writing_port_idx :=
  C7_open_multi_partial envFailSlot1 initialState 1 (by decide) (by decide) (by decide)

/-- C8 witness: Close from the initial state, where nothing is open. -/
theorem C8_close_noop_witness :
    let r := mexFunction envAllOk initialState [MxArray.str "close"]
    r.error = none ∧ r.released = [] ∧
    r.state.p0 = initialState.p0 ∧ r.state.p1 = initialState.p1 ∧
    r.state.p2 = initialState.p2 ∧
    r.state.use_multiple_ports = 1 ∧ r.state.writing_port_idx = 1 :=
  C8_close_noop envAllOk initialState (by decide) (by decide) (by decide)

/-- C10 witness: writing 256 delivers byte 0 and writing -1 delivers
byte 255, neither rejected. -/
theorem C10_write_mod_witness :
    (let r := mexFunction envAllOk openedState [MxArray.str "write", MxArray.num 256]
     r.error = none ∧ r.written = some (((256 : Int) % 256).toNat) ∧ r.state = openedState) ∧
    (let r := mexFunction envAllOk openedState [MxArray.str "write", MxArray.num (-1)]
     r.error = none ∧ r.written = some (((-1 : Int) % 256).toNat) ∧ r.state = openedState) ∧
    ((256 : Int) % 256).toNat = 0 ∧ ((-1 : Int) % 256).toNat = 255 :=
  ⟨C10_write_mod envAllOk openedState 256 (by decide) rfl,
   C10_write_mod envAllOk openedState (-1) (by decide) rfl,
   by decide, by decide⟩
